import Mathlib

/-!
Verification of the portfolio-builder draft-edit-and-save workflow.

The definitions below are a shallow embedding of the TypeScript source:
  - `src/types/portfolio.ts` (data model),
  - `src/context/portfolioStore.ts` (placeholder data, persisted record),
  - the edit page component (`validateForm`, `handleFileChange`,
    `handlePortfolioChange`, `addPortfolioItem`, `removePortfolioItem`,
    `saveChanges`),
  - the `FileUploadBox` component (`handleFile` validation, `removeImage`).

JavaScript strings are modelled as Lean `String`; the JS `string | null`
type is `Option String`; JS truthiness of a `string | null` value is the
explicit `truthyStr` below (null and the empty string are falsy).  The
asynchronous image compression / data-URL encoding steps of `saveChanges`
are modelled as an explicit environment of fallible functions.
-/

/-- The two image slots of the edit page (`background`, `profile`). -/
inductive Slot where
  | background
  | profile
deriving DecidableEq, Repr

/-- A pair of per-slot values, one for each of the two image slots. -/
structure SlotMap (α : Type) where
  background : α
  profile : α
deriving DecidableEq, Repr

/-- Read the value a `SlotMap` holds for a slot. -/
def SlotMap.get {α : Type} (m : SlotMap α) : Slot → α
  | Slot.background => m.background
  | Slot.profile => m.profile

/-- Replace the value a `SlotMap` holds for one slot (the spread-update
`{ ...prev, [id]: v }` of the source). -/
def SlotMap.set {α : Type} (m : SlotMap α) : Slot → α → SlotMap α
  | Slot.background, v => { m with background := v }
  | Slot.profile, v => { m with profile := v }

/-- `ProfileData` from `src/types/portfolio.ts`. -/
structure ProfileData where
  name : String
  title : String
  description : String
deriving DecidableEq, Repr

/-- `PortfolioItem` from `src/types/portfolio.ts`; `id` is a timestamp. -/
structure PortfolioItem where
  id : Nat
  position : String
  company : String
  startDate : String
  endDate : String
  description : String
deriving DecidableEq, Repr

/-- The persisted `PortfolioState` data (minus the action): profile,
experience entries and the two stored image values (`string | null`,
Base64 data URLs when present). -/
structure PortfolioRecord where
  profile : ProfileData
  portfolios : List PortfolioItem
  images : SlotMap (Option String)
deriving DecidableEq, Repr

/-- `placeholderData` from `src/context/portfolioStore.ts`. -/
def placeholderData : PortfolioRecord :=
  { profile :=
      { name := "John Doe"
        title := "Senior Frontend Developer"
        description := "This is placeholder data. Edit the portfolio to add your own professional summary here. Talk about your passion for creating beautiful, user-friendly web applications." }
    portfolios :=
      [ { id := 1
          position := "Example Position"
          company := "Tech Company"
          startDate := "2023-01"
          endDate := "2025-01"
          description := "This is a sample portfolio entry. Describe your responsibilities, achievements, and the technologies you used." } ]
    images := { background := none, profile := none } }

/-- The store read at draft-open time: the persisted record when one
exists, the placeholder data otherwise (the Zustand store initialises
with `placeholderData` and `persist` overwrites it from storage). -/
def initialStore (persisted : Option PortfolioRecord) : PortfolioRecord :=
  persisted.getD placeholderData

/-- A user-selected file: its byte size, MIME type string, and an opaque
content tag identifying the bytes. -/
structure File where
  size : Nat
  type : String
  content : String
deriving DecidableEq, Repr

/-- `ImageStatus` of the edit page: `initial` (untouched baseline),
`new` (a replacement file is pending), `removed` (slot cleared). -/
inductive ImageStatus where
  | initial
  | new
  | removed
deriving DecidableEq, Repr

/-- JS truthiness of a `string | null` value: `null` and `""` are falsy. -/
def truthyStr : Option String → Bool
  | none => false
  | some s => s ≠ ""

/-- The local draft state of the edit page: `profile`, `portfolioItems`,
pending `files`, and per-slot `imageStatus`. -/
structure Draft where
  profile : ProfileData
  portfolioItems : List PortfolioItem
  files : SlotMap (Option File)
  imageStatus : SlotMap ImageStatus
deriving DecidableEq, Repr

/-- Opening the edit page: the draft is initialised from the store, with
no pending files, and each slot's status is `initial` when the stored
image value is truthy and `removed` otherwise
(`store.images.background ? "initial" : "removed"`). -/
def openDraft (r : PortfolioRecord) : Draft :=
  { profile := r.profile
    portfolioItems := r.portfolios
    files := { background := none, profile := none }
    imageStatus :=
      { background := if truthyStr r.images.background then ImageStatus.initial else ImageStatus.removed
        profile := if truthyStr r.images.profile then ImageStatus.initial else ImageStatus.removed } }

/-- Drop leading whitespace characters from a character list. -/
def dropLeadingWs : List Char → List Char
  | [] => []
  | c :: cs => if c.isWhitespace then dropLeadingWs cs else c :: cs

/-- The JS `String.prototype.trim()`: strip whitespace from both ends. -/
def jsTrim (s : String) : String :=
  String.mk ((dropLeadingWs (dropLeadingWs s.data).reverse).reverse)

/-- Validation error keys contributed by one entry (`validateForm`):
`position`, `company`, `description` are checked after `trim`,
`startDate` and `endDate` by JS truthiness (non-empty string). -/
def entryErrors (item : PortfolioItem) : List String :=
  (if (jsTrim item.position) = "" then ["item_position_" ++ toString item.id] else []) ++
  (if (jsTrim item.company) = "" then ["item_company_" ++ toString item.id] else []) ++
  (if item.startDate = "" then ["item_startDate_" ++ toString item.id] else []) ++
  (if item.endDate = "" then ["item_endDate_" ++ toString item.id] else []) ++
  (if (jsTrim item.description) = "" then ["item_description_" ++ toString item.id] else [])

/-- All validation error keys of `validateForm`: the three trimmed
profile checks followed by the per-entry checks. -/
def formErrors (d : Draft) : List String :=
  (if (jsTrim d.profile.name) = "" then ["profile_name"] else []) ++
  (if (jsTrim d.profile.title) = "" then ["profile_title"] else []) ++
  (if (jsTrim d.profile.description) = "" then ["profile_description"] else []) ++
  d.portfolioItems.flatMap entryErrors

/-- `isFormValid` as computed by `validateForm`: both image slots are not
`removed` and the error map is empty. -/
def isFormValid (d : Draft) : Bool :=
  (d.imageStatus.background ≠ ImageStatus.removed) &&
  (d.imageStatus.profile ≠ ImageStatus.removed) &&
  (formErrors d).isEmpty

/-- Maximum accepted file size of `FileUploadBox.handleFile`: 3 MiB. -/
def maxFileSize : Nat := 3 * 1024 * 1024

/-- The MIME allow-list of `FileUploadBox.handleFile`. -/
def allowedTypes : List String := ["image/png", "image/jpeg", "image/jpg"]

/-- Whether `FileUploadBox.handleFile` accepts a selected file: it
rejects when `size > 3 * 1024 * 1024` and when the type is not in the
allow-list. -/
def fileAccepted (f : File) : Bool :=
  !(decide (f.size > maxFileSize)) && allowedTypes.contains f.type

/-- `setImage(slot, fileOrNull)`: the composition of
`FileUploadBox.handleFile` / `removeImage` with the page's
`handleFileChange`.  A non-null file is validated first; on rejection a
transient error message is produced and the draft is untouched.  An
accepted file sets the slot's pending file and status `new`; a null file
clears the pending file and sets status `removed`.  Returns the updated
draft and the error message, if any. -/
def setImage (d : Draft) (s : Slot) (f : Option File) : Draft × Option String :=
  match f with
  | none =>
      ({ d with files := d.files.set s none
                imageStatus := d.imageStatus.set s ImageStatus.removed }, none)
  | some file =>
      if file.size > maxFileSize then
        (d, some "File size must be less than 3MB.")
      else if !(allowedTypes.contains file.type) then
        (d, some "Invalid file type. Please use PNG, JPG, or JPEG.")
      else
        ({ d with files := d.files.set s (some file)
                  imageStatus := d.imageStatus.set s ImageStatus.new }, none)

/-- The editable text fields of an entry. -/
inductive EntryField where
  | position
  | company
  | startDate
  | endDate
  | description
deriving DecidableEq, Repr

/-- Read one text field of an entry. -/
def PortfolioItem.getField (item : PortfolioItem) : EntryField → String
  | EntryField.position => item.position
  | EntryField.company => item.company
  | EntryField.startDate => item.startDate
  | EntryField.endDate => item.endDate
  | EntryField.description => item.description

/-- The spread-update `{ ...item, [name]: value }` on one entry. -/
def PortfolioItem.setField (item : PortfolioItem) : EntryField → String → PortfolioItem
  | EntryField.position, v => { item with position := v }
  | EntryField.company, v => { item with company := v }
  | EntryField.startDate, v => { item with startDate := v }
  | EntryField.endDate, v => { item with endDate := v }
  | EntryField.description, v => { item with description := v }

/-- `handlePortfolioChange` on the entry list:
`prev.map(item => item.id === id ? { ...item, [name]: value } : item)`. -/
def setEntryFieldList (l : List PortfolioItem) (tid : Nat) (f : EntryField) (v : String) : List PortfolioItem :=
  l.map (fun item => if item.id = tid then item.setField f v else item)

/-- `removePortfolioItem` on the entry list:
`prev.filter(item => item.id !== id)`. -/
def removeEntryList (l : List PortfolioItem) (tid : Nat) : List PortfolioItem :=
  l.filter (fun item => item.id ≠ tid)

/-- `handlePortfolioChange` at the draft level. -/
def setEntryField (d : Draft) (tid : Nat) (f : EntryField) (v : String) : Draft :=
  { d with portfolioItems := setEntryFieldList d.portfolioItems tid f v }

/-- `removePortfolioItem` at the draft level. -/
def removeEntry (d : Draft) (tid : Nat) : Draft :=
  { d with portfolioItems := removeEntryList d.portfolioItems tid }

/-- `addPortfolioItem`: when the list already holds 10 or more entries,
alert and change nothing; otherwise append a fresh all-blank entry whose
id is the current timestamp (`Date.now()`, passed in as `now`).  Returns
the updated draft and the warning message, if any. -/
def addPortfolioItem (d : Draft) (now : Nat) : Draft × Option String :=
  if d.portfolioItems.length ≥ 10 then
    (d, some "Maximum 10 portfolio entries allowed")
  else
    ({ d with portfolioItems := d.portfolioItems ++
        [{ id := now, position := "", company := "", startDate := "", endDate := "", description := "" }] },
     none)

/-- `handleProfileChange`: replace one profile field by name. -/
inductive ProfileField where
  | name
  | title
  | description
deriving DecidableEq, Repr

/-- The spread-update `{ ...prev, [name]: value }` on the profile. -/
def setProfileField (d : Draft) : ProfileField → String → Draft
  | ProfileField.name, v => { d with profile := { d.profile with name := v } }
  | ProfileField.title, v => { d with profile := { d.profile with title := v } }
  | ProfileField.description, v => { d with profile := { d.profile with description := v } }

/-- The fallible asynchronous collaborators of `saveChanges`:
`compress` models `imageCompression(file, options)` and `encode` models
`fileToDataUrl`; either may fail (a thrown promise rejection). -/
structure SaveEnv where
  compress : File → Except String File
  encode : File → Except String String

/-- The observable outcome of one `saveChanges` invocation. -/
inductive SaveOutcome where
  | validationError (alert : String)
  | success
  | failure (alert : String)
deriving DecidableEq, Repr

/-- The whole edit-workflow state: the in-memory draft plus the persisted
record (the single-key store's current value). -/
structure SysState where
  draft : Draft
  store : PortfolioRecord
deriving DecidableEq, Repr

/-- Resolve one slot's value to persist: a pending file is compressed
and encoded; with no pending file an `initial` slot carries over the
stored value and any other status yields `null`
(`compressedX ? fileToDataUrl(compressedX) : status === "initial" ? store.images.x : null`). -/
def resolveSlot (env : SaveEnv) (pending : Option File) (status : ImageStatus)
    (stored : Option String) : Except String (Option String) :=
  match pending with
  | some f => do
      let cf ← env.compress f
      let url ← env.encode cf
      pure (some url)
  | none =>
      pure (if status = ImageStatus.initial then stored else none)

/-- The record `saveChanges` builds and hands to `setPortfolioData`:
the draft's profile and entries together with the two resolved image
values; any compression/encoding error aborts the whole computation. -/
def mergedRecord (env : SaveEnv) (s : SysState) : Except String PortfolioRecord := do
  let backgroundToSave ← resolveSlot env s.draft.files.background
    s.draft.imageStatus.background s.store.images.background
  let profileToSave ← resolveSlot env s.draft.files.profile
    s.draft.imageStatus.profile s.store.images.profile
  pure { profile := s.draft.profile
         portfolios := s.draft.portfolioItems
         images := { background := backgroundToSave, profile := profileToSave } }

/-- `saveChanges`: when `isFormValid` is false, alert and return without
touching anything.  Otherwise compress and encode the pending files,
build the merged record and overwrite the store with it in a single
`setPortfolioData` call; any error in the pipeline leaves the state
unchanged and reports a retryable failure alert. -/
def saveChanges (env : SaveEnv) (s : SysState) : SysState × SaveOutcome :=
  if !isFormValid s.draft then
    (s, SaveOutcome.validationError "Please complete all required fields and upload both images.")
  else
    match mergedRecord env s with
    | Except.ok r => ({ draft := s.draft, store := r }, SaveOutcome.success)
    | Except.error _ => (s, SaveOutcome.failure "Could not save changes. Please try again.")

/-- One user mutation of the draft (the closed operation set of the
Draft State Controller, save and preview aside). -/
inductive DraftOp where
  | profileField (f : ProfileField) (v : String)
  | entryField (tid : Nat) (f : EntryField) (v : String)
  | addEntry (now : Nat)
  | dropEntry (tid : Nat)
  | image (s : Slot) (f : Option File)
deriving Repr

/-- Apply one mutation to the draft (warnings and errors discarded). -/
def applyDraftOp (d : Draft) : DraftOp → Draft
  | DraftOp.profileField f v => setProfileField d f v
  | DraftOp.entryField tid f v => setEntryField d tid f v
  | DraftOp.addEntry now => (addPortfolioItem d now).1
  | DraftOp.dropEntry tid => removeEntry d tid
  | DraftOp.image s f => (setImage d s f).1

/-- Apply a sequence of mutations in order. -/
def applyDraftOps (d : Draft) : List DraftOp → Draft
  | [] => d
  | op :: ops => applyDraftOps (applyDraftOp d op) ops

/-- A sequence of `setImage` calls only. -/
def applyImageOps (d : Draft) : List (Slot × Option File) → Draft
  | [] => d
  | (s, f) :: ops => applyImageOps ((setImage d s f).1) ops

/-! ## Spec-side validity predicates -/

/-- Following the spec's words for C1, read literally: all five entry
fields non-blank after trimming. -/
def entryNonBlankAllTrim (item : PortfolioItem) : Prop :=
  jsTrim item.position ≠ "" ∧ jsTrim item.company ≠ "" ∧
  jsTrim item.startDate ≠ "" ∧ jsTrim item.endDate ≠ "" ∧
  jsTrim item.description ≠ ""

instance (item : PortfolioItem) : Decidable (entryNonBlankAllTrim item) := by
  unfold entryNonBlankAllTrim; infer_instance

/-- Following the claim C1's words: three profile fields non-blank after
trimming, every entry's five fields non-blank (after trimming), neither
image slot `removed`. -/
def draftValidClaim (d : Draft) : Prop :=
  jsTrim d.profile.name ≠ "" ∧ jsTrim d.profile.title ≠ "" ∧
  jsTrim d.profile.description ≠ "" ∧
  (∀ item ∈ d.portfolioItems, entryNonBlankAllTrim item) ∧
  d.imageStatus.background ≠ ImageStatus.removed ∧
  d.imageStatus.profile ≠ ImageStatus.removed

instance (d : Draft) : Decidable (draftValidClaim d) := by
  unfold draftValidClaim; infer_instance

/-- What the code actually requires of one entry: `position`, `company`,
`description` non-blank after trimming; `startDate`, `endDate` merely
non-empty. -/
def entryNonBlankCode (item : PortfolioItem) : Prop :=
  jsTrim item.position ≠ "" ∧ jsTrim item.company ≠ "" ∧
  item.startDate ≠ "" ∧ item.endDate ≠ "" ∧
  jsTrim item.description ≠ ""

instance (item : PortfolioItem) : Decidable (entryNonBlankCode item) := by
  unfold entryNonBlankCode; infer_instance

/-- The amended validity characterisation: profile fields non-blank after
trimming, entry dates non-empty, other entry fields non-blank after
trimming, neither slot `removed`. -/
def draftValidAmended (d : Draft) : Prop :=
  jsTrim d.profile.name ≠ "" ∧ jsTrim d.profile.title ≠ "" ∧
  jsTrim d.profile.description ≠ "" ∧
  (∀ item ∈ d.portfolioItems, entryNonBlankCode item) ∧
  d.imageStatus.background ≠ ImageStatus.removed ∧
  d.imageStatus.profile ≠ ImageStatus.removed

instance (d : Draft) : Decidable (draftValidAmended d) := by
  unfold draftValidAmended; infer_instance

/-! ## Validation lemmas -/

lemma flatMap_eq_nil_iff_forall {α β : Type} (l : List α) (f : α → List β) :
    l.flatMap f = [] ↔ ∀ x ∈ l, f x = [] := by
  induction l with
  | nil => simp
  | cons a l ih => simp [List.flatMap_cons, ih]

lemma entryErrors_eq_nil_iff (item : PortfolioItem) :
    entryErrors item = [] ↔ entryNonBlankCode item := by
  unfold entryErrors entryNonBlankCode
  split_ifs <;> simp_all

lemma formErrors_eq_nil_iff (d : Draft) :
    formErrors d = [] ↔
      (jsTrim d.profile.name ≠ "" ∧ jsTrim d.profile.title ≠ "" ∧
       jsTrim d.profile.description ≠ "" ∧
       ∀ item ∈ d.portfolioItems, entryNonBlankCode item) := by
  unfold formErrors
  rw [List.append_eq_nil, List.append_eq_nil, List.append_eq_nil,
    flatMap_eq_nil_iff_forall]
  constructor
  · rintro ⟨⟨⟨h1, h2⟩, h3⟩, h4⟩
    refine ⟨?_, ?_, ?_, fun item hm => (entryErrors_eq_nil_iff item).mp (h4 item hm)⟩
    · intro h; simp [h] at h1
    · intro h; simp [h] at h2
    · intro h; simp [h] at h3
  · rintro ⟨h1, h2, h3, h4⟩
    refine ⟨⟨⟨?_, ?_⟩, ?_⟩, fun item hm => (entryErrors_eq_nil_iff item).mpr (h4 item hm)⟩
    · simp [h1]
    · simp [h2]
    · simp [h3]

lemma isFormValid_iff (d : Draft) : isFormValid d = true ↔ draftValidAmended d := by
  unfold isFormValid draftValidAmended
  rw [Bool.and_eq_true, Bool.and_eq_true, List.isEmpty_iff, formErrors_eq_nil_iff]
  simp only [decide_eq_true_eq]
  tauto

/-- A draft whose entry has a whitespace-only `startDate`: every other
field is filled and both slots are `initial`. -/
def blankDateDraft : Draft :=
  { profile := { name := "Jane", title := "Dev", description := "Desc" }
    portfolioItems :=
      [ { id := 7, position := "Engineer", company := "Acme"
          startDate := " ", endDate := "2025-01", description := "Work" } ]
    files := { background := none, profile := none }
    imageStatus := { background := ImageStatus.initial, profile := ImageStatus.initial } }

/-- C1 (counterexample): the code's `isFormValid` is `true` on a draft
whose entry `startDate` is the single space `" "`, which is blank after
trimming — `validateForm` checks the two date fields by JS truthiness
(`!item.startDate`), not after `trim()`, so the claimed equivalence
fails at this draft. -/
theorem c1_trim_counterexample :
    isFormValid blankDateDraft = true ∧ ¬ draftValidClaim blankDateDraft := by
  constructor
  · decide
  · decide

/-- C1 (amended): `isFormValid` is true iff the three profile fields are
non-blank after trimming, every entry's `position`, `company` and
`description` are non-blank after trimming, every entry's `startDate`
and `endDate` are non-empty, and neither image slot is `removed`. -/
theorem c1_isFormValid_characterisation (d : Draft) :
    isFormValid d = true ↔ draftValidAmended d :=
  isFormValid_iff d

/-- C8: with an empty persistent store, the edit workflow opens on the
placeholder draft: profile "John Doe" / "Senior Frontend Developer",
exactly one entry dated 2023-01..2025-01, both stored image values
absent (hence both slots `removed`), and `isFormValid` false. -/
theorem c8_fresh_install_placeholder :
    (openDraft (initialStore none)).profile.name = "John Doe" ∧
    (openDraft (initialStore none)).profile.title = "Senior Frontend Developer" ∧
    ((openDraft (initialStore none)).portfolioItems.map
      (fun i => (i.startDate, i.endDate))) = [("2023-01", "2025-01")] ∧
    (initialStore none).images.background = none ∧
    (initialStore none).images.profile = none ∧
    (openDraft (initialStore none)).imageStatus.background = ImageStatus.removed ∧
    (openDraft (initialStore none)).imageStatus.profile = ImageStatus.removed ∧
    isFormValid (openDraft (initialStore none)) = false := by
  refine ⟨rfl, rfl, rfl, rfl, rfl, rfl, rfl, ?_⟩
  decide

/-! ## Image slot lemmas -/

lemma SlotMap.get_set_self {α : Type} (m : SlotMap α) (s : Slot) (v : α) :
    (m.set s v).get s = v := by
  cases s <;> rfl

lemma SlotMap.get_set_other {α : Type} (m : SlotMap α) (s t : Slot) (v : α)
    (h : s ≠ t) : (m.set s v).get t = m.get t := by
  cases s <;> cases t <;> first | rfl | exact absurd rfl h

lemma setImage_portfolioItems (d : Draft) (s : Slot) (f : Option File) :
    (setImage d s f).1.portfolioItems = d.portfolioItems := by
  rcases f with _ | file
  · rfl
  · simp only [setImage]
    split_ifs <;> rfl

lemma setImage_none_status (d : Draft) (s : Slot) :
    (setImage d s none).1.imageStatus.get s = ImageStatus.removed := by
  simp [setImage, SlotMap.get_set_self]

lemma setImage_none_file (d : Draft) (s : Slot) :
    (setImage d s none).1.files.get s = none := by
  simp [setImage, SlotMap.get_set_self]

lemma setImage_accepted_status (d : Draft) (s : Slot) (f : File)
    (hacc : fileAccepted f = true) :
    (setImage d s (some f)).1.imageStatus.get s = ImageStatus.new := by
  unfold fileAccepted at hacc
  rw [Bool.and_eq_true] at hacc
  obtain ⟨h1, h2⟩ := hacc
  simp only [Bool.not_eq_true', decide_eq_false_iff_not] at h1
  have h2' : f.type ∈ allowedTypes := by simpa using h2
  simp [setImage, h1, h2', SlotMap.get_set_self]

lemma setImage_accepted_file (d : Draft) (s : Slot) (f : File)
    (hacc : fileAccepted f = true) :
    (setImage d s (some f)).1.files.get s = some f := by
  unfold fileAccepted at hacc
  rw [Bool.and_eq_true] at hacc
  obtain ⟨h1, h2⟩ := hacc
  simp only [Bool.not_eq_true', decide_eq_false_iff_not] at h1
  have h2' : f.type ∈ allowedTypes := by simpa using h2
  simp [setImage, h1, h2', SlotMap.get_set_self]

/-- After any single `setImage`, a slot's status is its old status,
`new`, or `removed` — never freshly `initial`. -/
lemma setImage_status_cases (d : Draft) (s : Slot) (f : Option File) (t : Slot) :
    (setImage d s f).1.imageStatus.get t = d.imageStatus.get t ∨
    (setImage d s f).1.imageStatus.get t = ImageStatus.new ∨
    (setImage d s f).1.imageStatus.get t = ImageStatus.removed := by
  rcases f with _ | file
  · by_cases h : s = t
    · subst h
      right; right; exact setImage_none_status d s
    · left; simp [setImage, SlotMap.get_set_other _ _ _ _ h]
  · simp only [setImage]
    split_ifs with h1 h2
    · left; rfl
    · left; rfl
    · by_cases h : s = t
      · subst h
        right; left; simp [SlotMap.get_set_self]
      · left; simp [SlotMap.get_set_other _ _ _ _ h]

lemma applyImageOps_not_initial (d : Draft) (t : Slot)
    (ops : List (Slot × Option File))
    (h : d.imageStatus.get t ≠ ImageStatus.initial) :
    (applyImageOps d ops).imageStatus.get t ≠ ImageStatus.initial := by
  induction ops generalizing d with
  | nil => exact h
  | cons op ops ih =>
      obtain ⟨s, f⟩ := op
      apply ih
      rcases setImage_status_cases d s f t with h' | h' | h' <;> rw [h'] <;> simp_all

/-- A small PNG file the upload validation accepts. -/
def okFile : File := { size := 100, type := "image/png", content := "img" }

/-- C2: from every current slot status, an accepted
`setImage(slot, file)` sets the slot's status to `new` and replaces the
pending file, and `setImage(slot, null)` sets it to `removed` and
discards the pending file; and no sequence of `setImage` operations
returns a slot to `initial` once it has left it. -/
theorem c2_slot_transitions (d : Draft) (s : Slot) (f : File)
    (ops : List (Slot × Option File))
    (hacc : fileAccepted f = true) :
    ((setImage d s (some f)).1.imageStatus.get s = ImageStatus.new ∧
     (setImage d s (some f)).1.files.get s = some f) ∧
    ((setImage d s none).1.imageStatus.get s = ImageStatus.removed ∧
     (setImage d s none).1.files.get s = none) ∧
    (d.imageStatus.get s ≠ ImageStatus.initial →
      (applyImageOps d ops).imageStatus.get s ≠ ImageStatus.initial) :=
  ⟨⟨setImage_accepted_status d s f hacc, setImage_accepted_file d s f hacc⟩,
   ⟨setImage_none_status d s, setImage_none_file d s⟩,
   fun hleft => applyImageOps_not_initial d s ops hleft⟩

/-- C2 witness at a concrete draft, file and operation sequence. -/
theorem c2_slot_transitions_witness :
    fileAccepted okFile = true ∧
    (setImage blankDateDraft Slot.background (some okFile)).1.imageStatus.get
      Slot.background = ImageStatus.new ∧
    ((openDraft placeholderData).imageStatus.get Slot.background ≠ ImageStatus.initial →
      (applyImageOps (openDraft placeholderData)
        [(Slot.background, some okFile), (Slot.background, none)]).imageStatus.get
          Slot.background ≠ ImageStatus.initial) :=
  ⟨by decide,
   (c2_slot_transitions blankDateDraft Slot.background okFile []
      (by decide)).1.1,
   (c2_slot_transitions (openDraft placeholderData) Slot.background okFile
      [(Slot.background, some okFile), (Slot.background, none)] (by decide)).2.2⟩

/-- C6: `setImage` with an oversize file (> 3 MiB) or a type outside the
MIME allow-list leaves the draft unchanged and produces the transient
error message of `FileUploadBox.handleFile`. -/
theorem c6_rejected_upload_unchanged (d : Draft) (s : Slot) (f : File)
    (h : f.size > maxFileSize ∨ f.type ∉ allowedTypes) :
    (setImage d s (some f)).1 = d ∧
    (setImage d s (some f)).2 =
      some (if f.size > maxFileSize then "File size must be less than 3MB."
            else "Invalid file type. Please use PNG, JPG, or JPEG.") := by
  rcases h with h | h
  · constructor <;> simp [setImage, h]
  · by_cases hs : f.size > maxFileSize
    · constructor <;> simp [setImage, hs]
    · constructor <;> simp [setImage, hs, h]

/-- A file one byte over the 3 MiB limit. -/
def bigFile : File := { size := 3 * 1024 * 1024 + 1, type := "image/png", content := "big" }

/-- C6 witness at a concrete oversize file. -/
theorem c6_rejected_upload_unchanged_witness :
    (bigFile.size > maxFileSize ∨ bigFile.type ∉ allowedTypes) ∧
    (setImage (openDraft placeholderData) Slot.background (some bigFile)).1 =
      openDraft placeholderData :=
  ⟨by decide,
   (c6_rejected_upload_unchanged (openDraft placeholderData) Slot.background bigFile
      (by decide)).1⟩

/-- A record whose persisted background image is the empty string:
non-null, yet falsy to JS. -/
def emptyStringRecord : PortfolioRecord :=
  { profile := { name := "A", title := "B", description := "C" }
    portfolios := []
    images := { background := some "", profile := some "x" } }

/-- C10 (counterexample): the draft-open status is decided by JS
truthiness, not by null-ness — a persisted background value of `""` is
non-null yet the slot opens in `removed` status. -/
theorem c10_truthiness_counterexample :
    emptyStringRecord.images.background ≠ none ∧
    (openDraft emptyStringRecord).imageStatus.background = ImageStatus.removed := by
  decide

/-- C10 (amended): a slot opens `initial` exactly when the persisted
value is truthy (non-null and non-empty), otherwise `removed`; a
`removed` slot makes the form invalid, stays `removed` under
`setImage(slot, null)`, and leaves `removed` only via an accepted new
file. -/
theorem c10_open_status_truthy (r : PortfolioRecord) (s : Slot) (d : Draft) (f : File)
    (hacc : fileAccepted f = true)
    (hrem : d.imageStatus.get s = ImageStatus.removed) :
    ((openDraft r).imageStatus.get s = ImageStatus.initial ↔
      truthyStr (r.images.get s) = true) ∧
    isFormValid d = false ∧
    (setImage d s none).1.imageStatus.get s = ImageStatus.removed ∧
    (setImage d s (some f)).1.imageStatus.get s = ImageStatus.new := by
  refine ⟨?_, ?_, setImage_none_status d s, setImage_accepted_status d s f hacc⟩
  · cases s
    · by_cases ht : truthyStr r.images.background <;>
        simp [openDraft, SlotMap.get, ht]
    · by_cases ht : truthyStr r.images.profile <;>
        simp [openDraft, SlotMap.get, ht]
  · cases s
    · have hb : d.imageStatus.background = ImageStatus.removed := hrem
      simp [isFormValid, hb]
    · have hb : d.imageStatus.profile = ImageStatus.removed := hrem
      simp [isFormValid, hb]

/-- C10 witness at a concrete record, slot, draft and file. -/
theorem c10_open_status_truthy_witness :
    fileAccepted okFile = true ∧
    (openDraft placeholderData).imageStatus.get Slot.background = ImageStatus.removed ∧
    isFormValid (openDraft placeholderData) = false :=
  ⟨by decide, by decide,
   (c10_open_status_truthy emptyStringRecord Slot.background
      (openDraft placeholderData) okFile (by decide) (by decide)).2.1⟩

/-! ## Entry-count lemmas -/

lemma setProfileField_portfolioItems (d : Draft) (f : ProfileField) (v : String) :
    (setProfileField d f v).portfolioItems = d.portfolioItems := by
  cases f <;> rfl

lemma addPortfolioItem_at_capacity (d : Draft) (now : Nat)
    (h : d.portfolioItems.length ≥ 10) :
    addPortfolioItem d now = (d, some "Maximum 10 portfolio entries allowed") := by
  simp [addPortfolioItem, h]

lemma applyDraftOp_length_le (d : Draft) (op : DraftOp)
    (h : d.portfolioItems.length ≤ 10) :
    (applyDraftOp d op).portfolioItems.length ≤ 10 := by
  cases op with
  | profileField f v => simpa [applyDraftOp, setProfileField_portfolioItems] using h
  | entryField tid f v =>
      simpa [applyDraftOp, setEntryField, setEntryFieldList] using h
  | addEntry now =>
      simp only [applyDraftOp, addPortfolioItem]
      split_ifs with h10
      · exact h
      · push_neg at h10
        simp only [List.length_append, List.length_cons, List.length_nil]
        omega
  | dropEntry tid =>
      simp only [applyDraftOp, removeEntry, removeEntryList]
      exact le_trans (List.length_filter_le _ _) h
  | image s f => simpa [applyDraftOp, setImage_portfolioItems] using h

lemma applyDraftOps_length_le (d : Draft) (ops : List DraftOp)
    (h : d.portfolioItems.length ≤ 10) :
    (applyDraftOps d ops).portfolioItems.length ≤ 10 := by
  induction ops generalizing d with
  | nil => exact h
  | cons op ops ih => exact ih _ (applyDraftOp_length_le d op h)

/-- C5: on a draft holding at most 10 entries, `addPortfolioItem` at
exactly 10 entries alerts and changes nothing, and no sequence of
mutation operations ever pushes the entry count past 10. -/
theorem c5_entry_cap (d : Draft) (now : Nat) (ops : List DraftOp)
    (hlen : d.portfolioItems.length ≤ 10) :
    (d.portfolioItems.length = 10 →
      addPortfolioItem d now = (d, some "Maximum 10 portfolio entries allowed")) ∧
    (applyDraftOps d ops).portfolioItems.length ≤ 10 :=
  ⟨fun h10 => addPortfolioItem_at_capacity d now (le_of_eq h10.symm),
   applyDraftOps_length_le d ops hlen⟩

/-- An all-blank entry with a given id. -/
def blankEntry (n : Nat) : PortfolioItem :=
  { id := n, position := "", company := "", startDate := "", endDate := "", description := "" }

/-- A draft already holding ten entries. -/
def tenEntryDraft : Draft :=
  { profile := { name := "A", title := "B", description := "C" }
    portfolioItems := (List.range 10).map blankEntry
    files := { background := none, profile := none }
    imageStatus := { background := ImageStatus.initial, profile := ImageStatus.initial } }

/-- C5 witness: the eleventh `addPortfolioItem` on a ten-entry draft is
a warning no-op and the cap holds under a concrete operation list. -/
theorem c5_entry_cap_witness :
    tenEntryDraft.portfolioItems.length ≤ 10 ∧
    ((tenEntryDraft.portfolioItems.length = 10 →
        addPortfolioItem tenEntryDraft 99 =
          (tenEntryDraft, some "Maximum 10 portfolio entries allowed")) ∧
     (applyDraftOps tenEntryDraft [DraftOp.addEntry 99]).portfolioItems.length ≤ 10) :=
  ⟨by decide, c5_entry_cap tenEntryDraft 99 [DraftOp.addEntry 99] (by decide)⟩

/-! ## Entry update/removal frame lemmas -/

lemma setEntryFieldList_skips (l : List PortfolioItem) (tid : Nat)
    (f : EntryField) (v : String) (h : ∀ x ∈ l, x.id ≠ tid) :
    setEntryFieldList l tid f v = l := by
  induction l with
  | nil => rfl
  | cons a l ih =>
      have ha : a.id ≠ tid := h a (by simp)
      simp only [setEntryFieldList, List.map_cons, if_neg ha]
      rw [show l.map (fun item => if item.id = tid then item.setField f v else item) =
            setEntryFieldList l tid f v from rfl,
        ih (fun x hx => h x (by simp [hx]))]

lemma removeEntryList_skips (l : List PortfolioItem) (tid : Nat)
    (h : ∀ x ∈ l, x.id ≠ tid) :
    removeEntryList l tid = l := by
  induction l with
  | nil => rfl
  | cons a l ih =>
      have ha : a.id ≠ tid := h a (by simp)
      simp only [removeEntryList, List.filter_cons]
      rw [if_pos (by simpa using ha),
        show l.filter (fun item => item.id ≠ tid) = removeEntryList l tid from rfl,
        ih (fun x hx => h x (by simp [hx]))]

lemma PortfolioItem.setField_id (e : PortfolioItem) (f : EntryField) (v : String) :
    (e.setField f v).id = e.id := by
  cases f <;> rfl

lemma PortfolioItem.getField_setField_self (e : PortfolioItem) (f : EntryField) (v : String) :
    (e.setField f v).getField f = v := by
  cases f <;> rfl

lemma PortfolioItem.getField_setField_other (e : PortfolioItem) (f g : EntryField)
    (v : String) (h : g ≠ f) : (e.setField f v).getField g = e.getField g := by
  cases f <;> cases g <;> first | rfl | exact absurd rfl h

/-- C9: `setEntryField` rewrites exactly the named field of the entry
with the matching id, leaving its other fields, all other entries, the
list length and the order unchanged, and is a no-op when the id is
absent; `removeEntry` deletes exactly the matching entry, keeps the rest
in order, and is a no-op when the id is absent. -/
theorem c9_entry_frame (before after extra : List PortfolioItem) (e : PortfolioItem)
    (tid : Nat) (f : EntryField) (v : String)
    (he : e.id = tid)
    (hb : ∀ x ∈ before, x.id ≠ tid)
    (ha : ∀ x ∈ after, x.id ≠ tid)
    (hx : ∀ x ∈ extra, x.id ≠ tid) :
    setEntryFieldList (before ++ e :: after) tid f v =
      before ++ e.setField f v :: after ∧
    removeEntryList (before ++ e :: after) tid = before ++ after ∧
    setEntryFieldList extra tid f v = extra ∧
    removeEntryList extra tid = extra ∧
    (e.setField f v).id = e.id ∧
    (e.setField f v).getField f = v ∧
    (∀ g : EntryField, g ≠ f → (e.setField f v).getField g = e.getField g) := by
  refine ⟨?_, ?_, setEntryFieldList_skips extra tid f v hx,
    removeEntryList_skips extra tid hx,
    PortfolioItem.setField_id e f v,
    PortfolioItem.getField_setField_self e f v,
    fun g hg => PortfolioItem.getField_setField_other e f g v hg⟩
  · simp only [setEntryFieldList, List.map_append, List.map_cons, if_pos he]
    rw [show before.map (fun item => if item.id = tid then item.setField f v else item) =
          setEntryFieldList before tid f v from rfl,
      setEntryFieldList_skips before tid f v hb,
      show after.map (fun item => if item.id = tid then item.setField f v else item) =
          setEntryFieldList after tid f v from rfl,
      setEntryFieldList_skips after tid f v ha]
  · simp only [removeEntryList, List.filter_append, List.filter_cons]
    rw [if_neg (by simp [he]),
      show before.filter (fun item => item.id ≠ tid) = removeEntryList before tid from rfl,
      removeEntryList_skips before tid hb,
      show after.filter (fun item => item.id ≠ tid) = removeEntryList after tid from rfl,
      removeEntryList_skips after tid ha]

/-- C9 witness at a concrete three-entry list. -/
theorem c9_entry_frame_witness :
    (blankEntry 5).id = 5 ∧
    (∀ x ∈ [blankEntry 1], x.id ≠ 5) ∧
    setEntryFieldList [blankEntry 1, blankEntry 5, blankEntry 2] 5
        EntryField.position "Boss" =
      [blankEntry 1, (blankEntry 5).setField EntryField.position "Boss", blankEntry 2] ∧
    removeEntryList [blankEntry 1, blankEntry 5, blankEntry 2] 5 =
      [blankEntry 1, blankEntry 2] :=
  ⟨by decide, by decide,
   ((c9_entry_frame [blankEntry 1] [blankEntry 2] [blankEntry 3] (blankEntry 5) 5
      EntryField.position "Boss" (by decide) (by decide) (by decide) (by decide))).1,
   ((c9_entry_frame [blankEntry 1] [blankEntry 2] [blankEntry 3] (blankEntry 5) 5
      EntryField.position "Boss" (by decide) (by decide) (by decide) (by decide))).2.1⟩

/-! ## Save pipeline theorems -/

/-- An environment whose compression and encoding always succeed. -/
def okEnv : SaveEnv :=
  { compress := fun f => Except.ok f
    encode := fun f => Except.ok f.content }

/-- An environment whose compression step always throws. -/
def failEnv : SaveEnv :=
  { compress := fun _ => Except.error "compression threw"
    encode := fun f => Except.ok f.content }

/-- C3: invoking `saveChanges` while the form is invalid yields the
validation alert and returns the system state untouched: the store is
not written and the draft is unchanged. -/
theorem c3_invalid_save_no_mutation (env : SaveEnv) (s : SysState)
    (h : isFormValid s.draft = false) :
    saveChanges env s =
      (s, SaveOutcome.validationError
        "Please complete all required fields and upload both images.") := by
  simp [saveChanges, h]

/-- C3 witness: saving the fresh-install draft (invalid: images absent)
changes nothing. -/
theorem c3_invalid_save_no_mutation_witness :
    isFormValid (openDraft placeholderData) = false ∧
    saveChanges okEnv { draft := openDraft placeholderData, store := placeholderData } =
      ({ draft := openDraft placeholderData, store := placeholderData },
       SaveOutcome.validationError
         "Please complete all required fields and upload both images.") :=
  ⟨by decide,
   c3_invalid_save_no_mutation okEnv
     { draft := openDraft placeholderData, store := placeholderData } (by decide)⟩

/-- C7: whenever `saveChanges` reports a pipeline failure, the system
state (store and draft) is exactly what it was, and the failure carries
the retry alert text. -/
theorem c7_failed_save_preserves_state (env : SaveEnv) (s : SysState) (m : String)
    (h : (saveChanges env s).2 = SaveOutcome.failure m) :
    (saveChanges env s).1 = s ∧ m = "Could not save changes. Please try again." := by
  by_cases hv : isFormValid s.draft
  · cases hres : mergedRecord env s with
    | ok r => simp [saveChanges, hv, hres] at h
    | error e =>
        refine ⟨by simp [saveChanges, hv, hres], ?_⟩
        simp [saveChanges, hv, hres] at h
        exact h.symm
  · have hv' : isFormValid s.draft = false := by simpa using hv
    simp [saveChanges, hv'] at h

/-- A valid draft with a pending new background file over a baseline
store holding both images. -/
def pendingSaveState : SysState :=
  { draft :=
      { profile := { name := "A", title := "B", description := "C" }
        portfolioItems := []
        files := { background := some okFile, profile := none }
        imageStatus := { background := ImageStatus.new, profile := ImageStatus.initial } }
    store :=
      { profile := { name := "A", title := "B", description := "C" }
        portfolios := []
        images := { background := some "oldBg", profile := some "oldPf" } } }

/-- C7 witness: a save whose compression step throws reports the retry
alert and preserves the state. -/
theorem c7_failed_save_preserves_state_witness :
    (saveChanges failEnv pendingSaveState).2 =
      SaveOutcome.failure "Could not save changes. Please try again." ∧
    ((saveChanges failEnv pendingSaveState).1 = pendingSaveState ∧
     "Could not save changes. Please try again." =
       "Could not save changes. Please try again.") :=
  ⟨by decide,
   c7_failed_save_preserves_state failEnv pendingSaveState
     "Could not save changes. Please try again." (by decide)⟩

lemma mergedRecord_no_pending (env : SaveEnv) (d : Draft) (r : PortfolioRecord)
    (hfb : d.files.background = none) (hfp : d.files.profile = none)
    (hsb : d.imageStatus.background = ImageStatus.initial)
    (hsp : d.imageStatus.profile = ImageStatus.initial)
    (hdp : d.profile = r.profile) (hdi : d.portfolioItems = r.portfolios) :
    mergedRecord env { draft := d, store := r } = Except.ok r := by
  simp only [mergedRecord]
  rw [hfb, hfp, hsb, hsp, hdp, hdi]
  rfl

/-- C4: a draft opened from a record whose two stored image values are
truthy has both slots in `initial` status, and saving it with no edits
succeeds (under any compression/encoding environment — neither is ever
invoked) and writes back exactly the original record, every field
included. -/
theorem c4_unedited_roundtrip (r : PortfolioRecord) (env : SaveEnv)
    (hb : truthyStr r.images.background = true)
    (hp : truthyStr r.images.profile = true)
    (hv : isFormValid (openDraft r) = true) :
    (openDraft r).imageStatus.background = ImageStatus.initial ∧
    (openDraft r).imageStatus.profile = ImageStatus.initial ∧
    saveChanges env { draft := openDraft r, store := r } =
      ({ draft := openDraft r, store := r }, SaveOutcome.success) := by
  have hsb : (openDraft r).imageStatus.background = ImageStatus.initial := by
    simp [openDraft, hb]
  have hsp : (openDraft r).imageStatus.profile = ImageStatus.initial := by
    simp [openDraft, hp]
  refine ⟨hsb, hsp, ?_⟩
  have hm : mergedRecord env { draft := openDraft r, store := r } = Except.ok r :=
    mergedRecord_no_pending env (openDraft r) r rfl rfl hsb hsp rfl rfl
  simp [saveChanges, hv, hm]

/-- A fully filled record with both images stored. -/
def storedRecord : PortfolioRecord :=
  { profile := { name := "A", title := "B", description := "C" }
    portfolios :=
      [ { id := 3, position := "Engineer", company := "Acme"
          startDate := "2023-01", endDate := "2025-01", description := "Work" } ]
    images := { background := some "bgData", profile := some "pfData" } }

/-- C4 witness: the no-edit save of `storedRecord` round-trips. -/
theorem c4_unedited_roundtrip_witness :
    truthyStr storedRecord.images.background = true ∧
    truthyStr storedRecord.images.profile = true ∧
    isFormValid (openDraft storedRecord) = true ∧
    saveChanges okEnv { draft := openDraft storedRecord, store := storedRecord } =
      ({ draft := openDraft storedRecord, store := storedRecord }, SaveOutcome.success) :=
  ⟨by decide, by decide, by decide,
   (c4_unedited_roundtrip storedRecord okEnv (by decide) (by decide) (by decide)).2.2⟩
